import Mathlib

/-!
Verification of the message-formatting / chunking pipeline and the
cost-accounting reconciliation flow of a Telegram LLM-relay bot.

Go strings are modelled as `List Char`; the string helpers below embed the
`strings` standard-library functions as used by the source (`Split` on the
concrete separators `"\n\n"` and `"\n"`, `TrimSpace`, `Fields`, `Join`,
`ReplaceAll` with a one-character pattern, `Trim` with the cutset `"|"`).
Go `float64` cost values are modelled as exact rationals; Go `int` token
counts as `Int`.
-/

/-- A Go string, as the list of its characters. -/
def goStr (s : String) : List Char := s.data

/-- Whitespace as recognised by Go `unicode.IsSpace` on the ASCII range
(space, tab, newline, vertical tab, form feed, carriage return). -/
def isSpace (c : Char) : Bool :=
  c = ' ' || c = '\t' || c = '\n' || c = '\x0b' || c = '\x0c' || c = '\r'

/-- Drop leading whitespace. -/
def trimLeftSpace : List Char → List Char
  | [] => []
  | c :: r => if isSpace c then trimLeftSpace r else c :: r

/-- Embedding of `strings.TrimSpace`: drop leading and trailing whitespace. -/
def trimSpace (s : List Char) : List Char :=
  (trimLeftSpace ((trimLeftSpace s).reverse)).reverse

/-- Embedding of `strings.Split(s, c)` for a one-character separator `c`. -/
def splitOnChar (c : Char) : List Char → List (List Char)
  | [] => [[]]
  | x :: xs =>
    if x = c then [] :: splitOnChar c xs
    else
      match splitOnChar c xs with
      | [] => [[x]]
      | h :: t => (x :: h) :: t

/-- Embedding of `strings.Split(s, "\n\n")`: split on the two-character separator,
scanning left to right and consuming the leftmost occurrence first. -/
def splitParas : List Char → List (List Char)
  | '\n' :: '\n' :: rest => [] :: splitParas rest
  | c :: rest =>
    match splitParas rest with
    | [] => [[c]]
    | h :: t => (c :: h) :: t
  | [] => [[]]

/-- Helper for `fields`: accumulate the current (reversed) word. -/
def fieldsAux : List Char → List Char → List (List Char)
  | [], acc => if acc = [] then [] else [acc.reverse]
  | c :: r, acc =>
    if isSpace c then
      if acc = [] then fieldsAux r [] else acc.reverse :: fieldsAux r []
    else fieldsAux r (c :: acc)

/-- Embedding of `strings.Fields`: the maximal runs of non-whitespace characters. -/
def fields (s : List Char) : List (List Char) := fieldsAux s []

/-- Embedding of `strings.Join(parts, sep)`. -/
def joinSep (sep : List Char) : List (List Char) → List Char
  | [] => []
  | [x] => x
  | x :: xs => x ++ sep ++ joinSep sep xs

/-- Embedding of `strings.ReplaceAll(s, old, new)` for a one-character `old`. -/
def replaceAllChar (old : Char) (new : List Char) (s : List Char) : List Char :=
  s.foldr (fun c acc => if c = old then new ++ acc else c :: acc) []

/-- Drop leading occurrences of a character. -/
def trimCharLeft (c : Char) : List Char → List Char
  | [] => []
  | x :: r => if x = c then trimCharLeft c r else x :: r

/-- Embedding of `strings.Trim(s, cut)` for a one-character cutset. -/
def trimChar (c : Char) (s : List Char) : List Char :=
  (trimCharLeft c ((trimCharLeft c s).reverse)).reverse

/-! ## Formatter (internal/bot/formatting.go) -/

/-- Table-row test from `convertTablesToMarkdownV2`: the trimmed line starts
and ends with a pipe and has length greater than 2. -/
def isTableRow (t : List Char) : Bool :=
  (t.head? == some '|') && (t.getLast? == some '|') && decide (2 < t.length)

/-- Cell conversion of one table row: trim the outer pipes, split on `|`,
trim each cell, drop empty cells, wrap header cells in `*`. -/
def convertTableRowCells (isHeader : Bool) (trimmed : List Char) : List (List Char) :=
  (splitOnChar '|' (trimChar '|' trimmed)).foldl
    (fun acc cell0 =>
      let cell := trimSpace cell0
      if cell ≠ [] then
        if isHeader then acc ++ [('*' :: cell) ++ ['*']] else acc ++ [cell]
      else acc) []

/-- The line loop of `convertTablesToMarkdownV2`, with one-line lookahead
for the header-separator test. -/
def convertTablesAux : List (List Char) → List (List Char)
  | [] => []
  | line :: rest =>
    let trimmed := trimSpace line
    if isTableRow trimmed then
      let isHeader :=
        match rest with
        | [] => false
        | next :: _ =>
          let nl := trimSpace next
          nl.contains '-' && nl.contains '|'
      let cleanCells := convertTableRowCells isHeader trimmed
      if cleanCells ≠ [] then
        ((goStr "• ") ++ joinSep (goStr " | ") cleanCells) :: convertTablesAux rest
      else convertTablesAux rest
    else if trimmed.contains '|' && trimmed.contains '-'
        && decide (0 < (trimSpace trimmed).length) then
      convertTablesAux rest
    else line :: convertTablesAux rest

/-- Embedding of `convertTablesToMarkdownV2` from internal/bot/formatting.go. -/
def convertTablesToMarkdownV2 (text : List Char) : List Char :=
  joinSep ['\n'] (convertTablesAux (splitOnChar '\n' text))

/-- Count of leading `#` characters. -/
def countLeadingHashes : List Char → Nat
  | '#' :: r => countLeadingHashes r + 1
  | _ => 0

/-- The line loop of `convertHeadersToMarkdownV2`: a trimmed line starting
with `#` becomes `*text*` (every heading level collapses to one style);
a header line whose remaining text is empty is dropped. -/
def convertHeadersAux : List (List Char) → List (List Char)
  | [] => []
  | line :: rest =>
    let trimmed := trimSpace line
    match trimmed with
    | '#' :: _ =>
      let headerLevel := countLeadingHashes trimmed
      let headerText := trimSpace (trimmed.drop headerLevel)
      if headerText ≠ [] then (('*' :: headerText) ++ ['*']) :: convertHeadersAux rest
      else convertHeadersAux rest
    | _ => line :: convertHeadersAux rest

/-- Embedding of `convertHeadersToMarkdownV2` from internal/bot/formatting.go. -/
def convertHeadersToMarkdownV2 (text : List Char) : List Char :=
  joinSep ['\n'] (convertHeadersAux (splitOnChar '\n' text))

/-- Embedding of `formatForMarkdownV2` from internal/bot/formatting.go: convert tables,
convert headers, then escape only periods and exclamation marks. -/
def formatForMarkdownV2 (text : List Char) : List Char :=
  replaceAllChar '!' (goStr "\\!")
    (replaceAllChar '.' (goStr "\\.")
      (convertHeadersToMarkdownV2 (convertTablesToMarkdownV2 text)))

/-! ## Message splitter

Two revisions exist in the repository; both are embedded.
`splitMessage` is the structure-preserving version (paragraphs, then lines,
then words, then hard character cuts); `splitMessageWords` is the
word-boundary-only version.
-/

/-- The word loop of `splitMessage`: accumulate words into `wordCurrent`,
flushing a trimmed chunk when the next word would overflow; a word arriving
at an empty accumulator that overflows is hard-cut once at `maxLength`. -/
def splitWordStep (maxLength : Nat)
    (acc : List (List Char) × List Char) (word : List Char) :
    List (List Char) × List Char :=
  let (messages, wordCurrent) := acc
  if maxLength < wordCurrent.length + word.length + 1 then
    if wordCurrent ≠ [] then (messages ++ [trimSpace wordCurrent], word)
    else (messages ++ [word.take maxLength], word.drop maxLength)
  else if wordCurrent = [] then (messages, word)
  else (messages, wordCurrent ++ [' '] ++ word)

/-- The line loop of `splitMessage`: trim each line, skip empty lines,
accumulate lines joined by `"\n"`, flushing when the next line would
overflow; a single over-long line is split by words. -/
def splitLineStep (maxLength : Nat)
    (acc : List (List Char) × List Char) (line0 : List Char) :
    List (List Char) × List Char :=
  let (messages, tempCurrent) := acc
  let line := trimSpace line0
  if line = [] then (messages, tempCurrent)
  else if maxLength < tempCurrent.length + line.length + 1 then
    if tempCurrent ≠ [] then (messages ++ [trimSpace tempCurrent], line)
    else
      let wres := (fields line).foldl (splitWordStep maxLength) (messages, [])
      (wres.1, if wres.2 ≠ [] then wres.2 else tempCurrent)
  else if tempCurrent = [] then (messages, line)
  else (messages, tempCurrent ++ ['\n'] ++ line)

/-- The paragraph loop of `splitMessage`: trim each paragraph, skip empty
paragraphs, accumulate paragraphs joined by `"\n\n"`, flushing when the
next paragraph would overflow; a single over-long paragraph is split by
lines. -/
def splitParaStep (maxLength : Nat)
    (acc : List (List Char) × List Char) (paragraph0 : List Char) :
    List (List Char) × List Char :=
  let (messages, current) := acc
  let paragraph := trimSpace paragraph0
  if paragraph = [] then (messages, current)
  else if maxLength < current.length + paragraph.length + 2 then
    if current ≠ [] then (messages ++ [trimSpace current], paragraph)
    else (splitOnChar '\n' paragraph).foldl (splitLineStep maxLength) (messages, [])
  else if current = [] then (messages, paragraph)
  else (messages, current ++ ['\n', '\n'] ++ paragraph)

/-- Embedding of `splitMessage` (structure-preserving revision): text that already fits
is returned as a single chunk; otherwise split by paragraphs, descending to
lines, words and hard cuts; a non-empty trailing accumulator becomes the
final chunk. -/
def splitMessage (text : List Char) (maxLength : Nat) : List (List Char) :=
  if text.length ≤ maxLength then [text]
  else
    let res := (splitParas text).foldl (splitParaStep maxLength) ([], [])
    if res.2 ≠ [] then res.1 ++ [res.2] else res.1

/-- The word loop of `splitMessageWords`. -/
def splitWordsOnlyStep (maxLength : Nat)
    (acc : List (List Char) × List Char) (word : List Char) :
    List (List Char) × List Char :=
  let (messages, current) := acc
  if maxLength < current.length + word.length + 1 then
    if current ≠ [] then (messages ++ [current], word)
    else (messages ++ [word.take maxLength], word.drop maxLength)
  else if current = [] then (messages, word)
  else (messages, current ++ [' '] ++ word)

/-- Embedding of `splitMessage` (word-boundary-only revision): text that already fits is
returned unchanged as a single chunk; otherwise split into words, packing
words separated by single spaces. -/
def splitMessageWords (text : List Char) (maxLength : Nat) : List (List Char) :=
  if text.length ≤ maxLength then [text]
  else
    let res := (fields text).foldl (splitWordsOnlyStep maxLength) ([], [])
    if res.2 ≠ [] then res.1 ++ [res.2] else res.1

/-! ## OpenRouter client (cost reconciler)

Transport, JSON parsing and the API-error field of the completion call are
collapsed into an `Except` parameter; the stats endpoint is modelled as a
function from the attempt index to the HTTP result the call would observe.
Wall-clock sleeps are recorded as the list of backoff durations (seconds).
-/

/-- Generation statistics payload of the stats endpoint. -/
structure GenerationStats where
  id : List Char
  model : List Char
  createdAt : List Char
  tokensPrompt : Int
  tokensCompletion : Int
  nativeTokensPrompt : Int
  nativeTokensCompletion : Int
  numMedia : Int
  providerName : List Char
  totalCost : ℚ
  cancelled : Bool
  finish : Bool
deriving DecidableEq

/-- One observed result of an HTTP call to the stats endpoint: either a
transport failure from `client.Do`, or a status code with the (parsed)
payload and the raw body text. -/
inductive HTTPResult where
  | transportErr (msg : List Char)
  | response (status : Nat) (stats : GenerationStats) (body : List Char)
deriving DecidableEq

/-- Is this response the pending status (HTTP 202)? -/
def isPending : HTTPResult → Bool
  | .transportErr _ => false
  | .response status _ _ => status == 202

deriving instance DecidableEq for Except

/-- Observable outcome of `GetGenerationStats`: the returned value or error,
the backoff sleeps performed (in seconds, in order), and the number of HTTP
attempts issued. -/
structure StatsOutcome where
  result : Except (List Char) GenerationStats
  sleeps : List Nat
  attempts : Nat
deriving DecidableEq

/-- The bounded retry loop of `GetGenerationStats`: at attempt index `i`,
a transport error aborts; a 202 response sleeps `i + 1` seconds and, when
`i + 1 < 5`, retries; otherwise the loop exits and the last response is
used as-is (a non-200 status becomes an HTTP error). `fuel` is the number
of loop iterations remaining (5 at entry); the `fuel = 0` case is
unreachable from `GetGenerationStats` because of the `i + 1 < 5` guard. -/
def getGenerationStatsLoop (r : Nat → HTTPResult) : Nat → Nat → StatsOutcome
  | _, 0 => ⟨Except.error (goStr "loop fuel exhausted"), [], 0⟩
  | i, fuel + 1 =>
    match r i with
    | .transportErr m => ⟨Except.error ((goStr "failed to make request: ") ++ m), [], 1⟩
    | .response status stats body =>
      if status = 202 then
        if i + 1 < 5 then
          let o := getGenerationStatsLoop r (i + 1) fuel
          ⟨o.result, (i + 1) :: o.sleeps, o.attempts + 1⟩
        else ⟨Except.error ((goStr "HTTP error 202: ") ++ body), [i + 1], 1⟩
      else if status = 200 then ⟨Except.ok stats, [], 1⟩
      else
        ⟨Except.error ((goStr "HTTP error ") ++ goStr (toString status) ++ (goStr ": ") ++ body),
          [], 1⟩

/-- Embedding of `GetGenerationStats`: query the stats endpoint with up to 5 attempts. -/
def GetGenerationStats (r : Nat → HTTPResult) : StatsOutcome :=
  getGenerationStatsLoop r 0 5

/-- Embedding of `findSubstring`: scan for an occurrence of `substr` in `s`. -/
def findSubstring (s substr : List Char) : Bool :=
  (List.range (s.length - substr.length + 1)).any
    (fun i => (s.drop i).take substr.length == substr)

/-- Embedding of `contains` from the openrouter package: substring containment test
(byte-for-byte, hence case-sensitive despite its comment). -/
def contains (s substr : List Char) : Bool :=
  decide (substr.length ≤ s.length) &&
    (s == substr ||
      (decide (substr.length < s.length) &&
        (s.take substr.length == substr ||
          s.drop (s.length - substr.length) == substr ||
          findSubstring s substr)))

/-- Embedding of `CalculateCost`: fallback cost estimate from the static per-model rate
table, dispatched by substring containment in source order
(gpt-4, then gpt-3.5-turbo, then claude, then a default pair). -/
def CalculateCost (model : List Char) (inputTokens outputTokens : Int) : ℚ :=
  let rates : ℚ × ℚ :=
    if contains model (goStr "gpt-4") then (3 / 100, 6 / 100)
    else if contains model (goStr "gpt-3.5-turbo") then (1 / 1000, 2 / 1000)
    else if contains model (goStr "claude") then (8 / 1000, 24 / 1000)
    else (2 / 1000, 4 / 1000)
  (inputTokens : ℚ) / 1000 * rates.1 + (outputTokens : ℚ) / 1000 * rates.2

/-! ## Storage (file-per-user) -/

/-- A message in the chat history. -/
structure ChatMessage where
  role : List Char
  content : List Char
  timestamp : Nat
deriving DecidableEq

/-- An expense record for one API call. -/
structure ExpenseRecord where
  timestamp : Nat
  model : List Char
  inputTokens : Int
  outputTokens : Int
  cost : ℚ
deriving DecidableEq

/-- Per-user settings aggregate. -/
structure UserSettings where
  userID : Int
  currentModel : List Char
  chatMode : List Char
  customModels : List (List Char)
  totalExpenses : ℚ
  expenseHistory : List ExpenseRecord
  chatHistory : List ChatMessage
  lastUpdated : Nat
deriving DecidableEq

/-- The state of one user's settings file: absent, unreadable or
unparsable, or holding a settings aggregate. -/
inductive FileState where
  | missing
  | corrupt (msg : List Char)
  | good (settings : UserSettings)
deriving DecidableEq

/-- The defaults returned for a user whose settings file does not exist. -/
def defaultSettings (userID : Int) (now : Nat) : UserSettings :=
  { userID := userID
    currentModel := goStr "openai/gpt-3.5-turbo"
    chatMode := goStr "without_history"
    customModels := []
    totalExpenses := 0
    expenseHistory := []
    chatHistory := []
    lastUpdated := now }

/-- Embedding of `GetUserSettings`: a missing file yields the defaults without error;
an unreadable or unparsable file yields an error; otherwise the stored
settings. -/
def GetUserSettings (files : Int → FileState) (userID : Int) (now : Nat) :
    Except (List Char) UserSettings :=
  match files userID with
  | .missing => .ok (defaultSettings userID now)
  | .corrupt m => .error ((goStr "failed to parse user settings: ") ++ m)
  | .good s => .ok s

/-- Embedding of `SaveUserSettings`: stamp `lastUpdated` and write the file keyed by the
aggregate's own user id; `writeFails` models an `os.WriteFile` failure. -/
def SaveUserSettings (files : Int → FileState) (s : UserSettings)
    (writeFails : Bool) (now : Nat) : Except (List Char) (Int → FileState) :=
  if writeFails then .error (goStr "failed to write user settings")
  else .ok (fun uid => if uid = s.userID then .good { s with lastUpdated := now } else files uid)

/-- Embedding of `AddExpense`: read the user's settings (defaults if the file is
missing), append the record, add its cost to the running total, save. -/
def AddExpense (files : Int → FileState) (userID : Int) (expense : ExpenseRecord)
    (writeFails : Bool) (now : Nat) : Except (List Char) (Int → FileState) :=
  match GetUserSettings files userID now with
  | .error e => .error e
  | .ok s =>
    SaveUserSettings files
      { s with
        expenseHistory := s.expenseHistory ++ [expense]
        totalExpenses := s.totalExpenses + expense.cost }
      writeFails now

/-- One step of a sequence of `AddExpense` calls: a failed call leaves the
store unchanged (the caller only logs the error). -/
def addExpenseStep (userID : Int) (now : Nat) (fs : Int → FileState)
    (e : ExpenseRecord) : Int → FileState :=
  match AddExpense fs userID e false now with
  | .ok f => f
  | .error _ => fs

/-- A sequence of `AddExpense` calls for one user. -/
def runAddExpenses (userID : Int) (es : List ExpenseRecord) (now : Nat)
    (files : Int → FileState) : Int → FileState :=
  es.foldl (addExpenseStep userID now) files

/-! ## GetChatResponse (reconciliation and expense recording) -/

/-- The message carried by a completion choice. -/
structure ChoiceMessage where
  role : List Char
  content : List Char
deriving DecidableEq

/-- One choice of the completion response. -/
structure ChatCompletionChoice where
  index : Int
  message : ChoiceMessage
  finishReason : List Char
deriving DecidableEq

/-- Normalized token usage of the completion response. -/
structure Usage where
  promptTokens : Int
  completionTokens : Int
  totalTokens : Int
deriving DecidableEq

/-- The completion response (the fields `GetChatResponse` reads). -/
structure ChatCompletionResponse where
  id : List Char
  model : List Char
  choices : List ChatCompletionChoice
  usage : Usage
deriving DecidableEq

/-- The expense computation of `GetChatResponse`: when a generation id is
present, query the stats endpoint; on success use the payload's model,
native token counts and total cost; on failure, or when the id is absent,
fall back to `CalculateCost` over the normalized usage counts. The `Bool`
records whether the stats endpoint was queried. -/
def reconcileExpense (model : List Char) (resp : ChatCompletionResponse)
    (statsResponses : Nat → HTTPResult) (now : Nat) : Bool × ExpenseRecord :=
  if resp.id ≠ [] then
    match (GetGenerationStats statsResponses).result with
    | .error _ =>
      (true,
        { timestamp := now
          model := model
          inputTokens := resp.usage.promptTokens
          outputTokens := resp.usage.completionTokens
          cost := CalculateCost model resp.usage.promptTokens resp.usage.completionTokens })
    | .ok stats =>
      (true,
        { timestamp := now
          model := stats.model
          inputTokens := stats.nativeTokensPrompt
          outputTokens := stats.nativeTokensCompletion
          cost := stats.totalCost })
  else
    (false,
      { timestamp := now
        model := model
        inputTokens := resp.usage.promptTokens
        outputTokens := resp.usage.completionTokens
        cost := CalculateCost model resp.usage.promptTokens resp.usage.completionTokens })

/-- Observable outcome of `GetChatResponse`: the reply or error, whether
the stats endpoint was queried, the expense recorded (if any), and the
resulting file store. -/
structure ChatOutcome where
  reply : Except (List Char) (List Char)
  statsCalled : Bool
  expense : Option ExpenseRecord
  files : Int → FileState

/-- Embedding of `GetChatResponse`: on a successful completion with at least one choice,
reconcile the expense, record it with `AddExpense` (a storage failure is
only logged), and return the first choice's content. -/
def GetChatResponse (model : List Char)
    (completion : Except (List Char) ChatCompletionResponse)
    (statsResponses : Nat → HTTPResult) (userID : Int) (files : Int → FileState)
    (writeFails : Bool) (now : Nat) : ChatOutcome :=
  match completion with
  | .error e => ⟨.error e, false, none, files⟩
  | .ok resp =>
    match resp.choices with
    | [] => ⟨.error (goStr "no response choices returned"), false, none, files⟩
    | choice :: _ =>
      let sc := reconcileExpense model resp statsResponses now
      let files2 :=
        match AddExpense files userID sc.2 writeFails now with
        | .ok f => f
        | .error _ => files
      ⟨.ok choice.message.content, sc.1, some sc.2, files2⟩

/-! ## Claims -/

/-- C8: for every text and maxLength with `len(text) ≤ maxLength` and
`maxLength > 0`, both revisions of `splitMessage` return exactly one chunk
equal to the text, unchanged. -/
theorem C8_fit_single_chunk (text : List Char) (maxLength : Nat)
    (h1 : text.length ≤ maxLength) (h2 : 0 < maxLength) :
    splitMessage text maxLength = [text] ∧ splitMessageWords text maxLength = [text] := by
  constructor <;> simp [splitMessage, splitMessageWords, h1]

theorem C8_fit_single_chunk_witness :
    (goStr "hello").length ≤ 10 ∧ 0 < 10 ∧
      splitMessage (goStr "hello") 10 = [goStr "hello"] ∧
      splitMessageWords (goStr "hello") 10 = [goStr "hello"] := by
  refine ⟨by decide, by decide, ?_, ?_⟩
  · exact (C8_fit_single_chunk (goStr "hello") 10 (by decide) (by decide)).1
  · exact (C8_fit_single_chunk (goStr "hello") 10 (by decide) (by decide)).2

/-- C9 counterexample: splitting the empty string does not yield the empty
chunk sequence; it yields the one-element sequence holding the empty
string. -/
theorem C9_empty_split_counterexample :
    splitMessage (goStr "") 10 ≠ [] ∧ splitMessage (goStr "") 10 = [[]] := by
  constructor <;> decide

/-- C9 (amended): `splitMessage` (both revisions) and `formatForMarkdownV2`
are total functions (they are plain functions of the embedding, defined on
every input string), and splitting the empty string yields exactly one
chunk, the empty string; formatting the empty string yields the empty
string. -/
theorem C9_total_empty_amended (maxLength : Nat) (h : 0 < maxLength) :
    splitMessage [] maxLength = [[]] ∧ splitMessageWords [] maxLength = [[]] ∧
      formatForMarkdownV2 [] = [] := by
  refine ⟨?_, ?_, rfl⟩ <;> simp [splitMessage, splitMessageWords]

theorem C9_total_empty_amended_witness :
    0 < 10 ∧ splitMessage [] 10 = [[]] ∧ splitMessageWords [] 10 = [[]] ∧
      formatForMarkdownV2 [] = [] :=
  ⟨by decide, C9_total_empty_amended 10 (by decide)⟩

/-- C10: for every store in which the user's settings file is missing,
`GetUserSettings` succeeds and returns the default aggregate: model
`openai/gpt-3.5-turbo`, chat mode `without_history`, no custom models,
zero total expenses, empty expense and chat histories. -/
theorem C10_missing_file_defaults (files : Int → FileState) (userID : Int) (now : Nat)
    (h : files userID = FileState.missing) :
    GetUserSettings files userID now =
      .ok { userID := userID
            currentModel := goStr "openai/gpt-3.5-turbo"
            chatMode := goStr "without_history"
            customModels := []
            totalExpenses := 0
            expenseHistory := []
            chatHistory := []
            lastUpdated := now } := by
  unfold GetUserSettings
  rw [h]
  rfl

theorem C10_missing_file_defaults_witness :
    (fun _ : Int => FileState.missing) 42 = FileState.missing ∧
      GetUserSettings (fun _ => FileState.missing) 42 7 =
        .ok { userID := 42
              currentModel := goStr "openai/gpt-3.5-turbo"
              chatMode := goStr "without_history"
              customModels := []
              totalExpenses := 0
              expenseHistory := []
              chatHistory := []
              lastUpdated := 7 } :=
  ⟨rfl, C10_missing_file_defaults (fun _ => FileState.missing) 42 7 rfl⟩

/-- C2: on the table block of the claim the code does not drop the
dash-and-pipe separator line: the separator itself satisfies the table-row
test (it starts and ends with a pipe), so it is converted to the bullet
line `• --- | ---` instead of being skipped, and three bullet lines are
produced instead of two. -/
theorem C2_separator_line_not_dropped :
    convertTablesToMarkdownV2 (goStr "| A | B |\n|---|---|\n| 1 | 2 |")
        = goStr "• *A* | *B*\n• --- | ---\n• 1 | 2" ∧
      (convertTablesAux (splitOnChar '\n' (goStr "| A | B |\n|---|---|\n| 1 | 2 |"))).length
        = 3 := by
  constructor <;> decide

/-- C1: the splitter violates the length bound of the claim: with
`maxLength = 4`, the text `"aa\n\nbbbbbb"` is split into `["aa", "bbbbbb"]`
whose second chunk has length 6 > 4 (a paragraph that arrives while the
accumulator is non-empty is flushed into `current` and never re-split).
The word-boundary revision shows the same defect on `"aa bbbbbb"`. -/
theorem C1_length_bound_violated :
    splitMessage (goStr "aa\n\nbbbbbb") 4 = [goStr "aa", goStr "bbbbbb"] ∧
      ((splitMessage (goStr "aa\n\nbbbbbb") 4).any (fun c => decide (4 < c.length))) = true ∧
      splitMessageWords (goStr "aa bbbbbb") 4 = [goStr "aa", goStr "bbbbbb"] ∧
      ((splitMessageWords (goStr "aa bbbbbb") 4).any (fun c => decide (4 < c.length))) = true := by
  refine ⟨by decide, by decide, by decide, by decide⟩

/-- C4: when the completion response carries no generation identifier,
`GetChatResponse` never queries the stats endpoint and the recorded
expense uses the fallback: cost from the static rate table applied to the
normalized usage counts of the completion response. -/
theorem C4_no_id_never_queries_stats
    (model : List Char) (resp : ChatCompletionResponse) (oracle : Nat → HTTPResult)
    (userID : Int) (files : Int → FileState) (writeFails : Bool) (now : Nat)
    (choice : ChatCompletionChoice) (rest : List ChatCompletionChoice)
    (hid : resp.id = []) (hch : resp.choices = choice :: rest) :
    (GetChatResponse model (.ok resp) oracle userID files writeFails now).statsCalled
        = false ∧
      (GetChatResponse model (.ok resp) oracle userID files writeFails now).expense =
        some { timestamp := now
               model := model
               inputTokens := resp.usage.promptTokens
               outputTokens := resp.usage.completionTokens
               cost := CalculateCost model resp.usage.promptTokens
                 resp.usage.completionTokens } := by
  obtain ⟨rid, rmodel, rchoices, rusage⟩ := resp
  simp only at hid hch
  subst hid
  subst hch
  simp [GetChatResponse, reconcileExpense]

theorem C4_no_id_never_queries_stats_witness :
    ({ id := [], model := goStr "m", choices := [⟨0, ⟨goStr "assistant", goStr "hi"⟩, goStr "stop"⟩],
       usage := ⟨3, 4, 7⟩ } : ChatCompletionResponse).id = [] ∧
      (GetChatResponse (goStr "m")
          (.ok { id := [], model := goStr "m",
                 choices := [⟨0, ⟨goStr "assistant", goStr "hi"⟩, goStr "stop"⟩],
                 usage := ⟨3, 4, 7⟩ })
          (fun _ => HTTPResult.transportErr (goStr "x")) 1 (fun _ => FileState.missing)
          false 0).statsCalled = false ∧
      (GetChatResponse (goStr "m")
          (.ok { id := [], model := goStr "m",
                 choices := [⟨0, ⟨goStr "assistant", goStr "hi"⟩, goStr "stop"⟩],
                 usage := ⟨3, 4, 7⟩ })
          (fun _ => HTTPResult.transportErr (goStr "x")) 1 (fun _ => FileState.missing)
          false 0).expense =
        some { timestamp := 0
               model := goStr "m"
               inputTokens := 3
               outputTokens := 4
               cost := CalculateCost (goStr "m") 3 4 } := by
  refine ⟨rfl, ?_⟩
  exact C4_no_id_never_queries_stats (goStr "m")
    { id := [], model := goStr "m",
      choices := [⟨0, ⟨goStr "assistant", goStr "hi"⟩, goStr "stop"⟩], usage := ⟨3, 4, 7⟩ }
    (fun _ => HTTPResult.transportErr (goStr "x")) 1 (fun _ => FileState.missing) false 0
    ⟨0, ⟨goStr "assistant", goStr "hi"⟩, goStr "stop"⟩ [] rfl rfl

/-- C5: the fallback rate table is dispatched by case-sensitive substring
containment in the fixed source order gpt-4, then gpt-3.5-turbo, then
claude, then the default pair, the first match winning; the estimated cost
is (input tokens / 1000 × input rate) + (output tokens / 1000 × output
rate). -/
theorem C5_rate_table_priority (model : List Char) (i o : Int) :
    (contains model (goStr "gpt-4") = true →
      CalculateCost model i o = (i : ℚ) / 1000 * (3 / 100) + (o : ℚ) / 1000 * (6 / 100)) ∧
    (contains model (goStr "gpt-4") = false →
      contains model (goStr "gpt-3.5-turbo") = true →
      CalculateCost model i o = (i : ℚ) / 1000 * (1 / 1000) + (o : ℚ) / 1000 * (2 / 1000)) ∧
    (contains model (goStr "gpt-4") = false →
      contains model (goStr "gpt-3.5-turbo") = false →
      contains model (goStr "claude") = true →
      CalculateCost model i o = (i : ℚ) / 1000 * (8 / 1000) + (o : ℚ) / 1000 * (24 / 1000)) ∧
    (contains model (goStr "gpt-4") = false →
      contains model (goStr "gpt-3.5-turbo") = false →
      contains model (goStr "claude") = false →
      CalculateCost model i o = (i : ℚ) / 1000 * (2 / 1000) + (o : ℚ) / 1000 * (4 / 1000)) := by
  refine ⟨fun h1 => ?_, fun h1 h2 => ?_, fun h1 h2 h3 => ?_, fun h1 h2 h3 => ?_⟩
  · simp [CalculateCost, h1]
  · simp [CalculateCost, h1, h2]
  · simp [CalculateCost, h1, h2, h3]
  · simp [CalculateCost, h1, h2, h3]

theorem C5_rate_table_priority_witness :
    contains (goStr "gpt-4-claude") (goStr "gpt-4") = true ∧
      CalculateCost (goStr "gpt-4-claude") 1000 2000
        = ((1000 : Int) : ℚ) / 1000 * (3 / 100) + ((2000 : Int) : ℚ) / 1000 * (6 / 100) ∧
      contains (goStr "my/claude-3") (goStr "gpt-4") = false ∧
      contains (goStr "my/claude-3") (goStr "gpt-3.5-turbo") = false ∧
      contains (goStr "my/claude-3") (goStr "claude") = true ∧
      CalculateCost (goStr "my/claude-3") 1000 2000
        = ((1000 : Int) : ℚ) / 1000 * (8 / 1000) + ((2000 : Int) : ℚ) / 1000 * (24 / 1000) :=
  ⟨by decide,
   (C5_rate_table_priority (goStr "gpt-4-claude") 1000 2000).1 (by decide),
   by decide, by decide, by decide,
   (C5_rate_table_priority (goStr "my/claude-3") 1000 2000).2.2.1
     (by decide) (by decide) (by decide)⟩

/-- The retry loop issues at most `fuel` attempts. -/
theorem getGenerationStatsLoop_attempts_le (r : Nat → HTTPResult) :
    ∀ (fuel i : Nat), (getGenerationStatsLoop r i fuel).attempts ≤ fuel := by
  intro fuel
  induction fuel with
  | zero => intro i; simp [getGenerationStatsLoop]
  | succ n ih =>
    intro i
    simp only [getGenerationStatsLoop]
    cases r i with
    | transportErr m => simp
    | response status stats body =>
      by_cases h202 : status = 202
      · by_cases hlt : i + 1 < 5
        · have := ih (i + 1)
          simp only [h202, hlt, if_true]
          simp
          omega
        · simp [h202, hlt]
      · by_cases h200 : status = 200 <;> simp [h202, h200]

/-- If the first `k` responses are pending and response `k` is not
(with `k` within the attempt budget), the loop performs exactly `k + 1`
attempts and sleeps the backoff schedule `i+1, i+2, ..., i+k` seconds. -/
theorem getGenerationStatsLoop_first_settled (r : Nat → HTTPResult) :
    ∀ (k i : Nat), i + k < 5 →
      (∀ j, j < k → isPending (r (i + j)) = true) →
      isPending (r (i + k)) = false →
      (getGenerationStatsLoop r i (5 - i)).attempts = k + 1 ∧
        (getGenerationStatsLoop r i (5 - i)).sleeps
          = (List.range k).map (fun j => i + j + 1) := by
  intro k
  induction k with
  | zero =>
    intro i hik hp hnp
    have hf : 5 - i = (4 - i) + 1 := by omega
    rw [hf]
    simp only [getGenerationStatsLoop]
    simp only [Nat.add_zero] at hnp
    cases hr : r i with
    | transportErr m => simp
    | response status stats body =>
      rw [hr] at hnp
      simp only [isPending] at hnp
      have hne : ¬ status = 202 := by
        intro heq
        rw [heq] at hnp
        simp at hnp
      by_cases h200 : status = 200 <;> simp [hne, h200]
  | succ k ih =>
    intro i hik hp hnp
    have hp0 : isPending (r i) = true := by
      have h0 := hp 0 (Nat.succ_pos k)
      simpa using h0
    have hlt : i + 1 < 5 := by omega
    have hik2 : (i + 1) + k < 5 := by omega
    have hp2 : ∀ j, j < k → isPending (r ((i + 1) + j)) = true := by
      intro j hj
      have hidx : (i + 1) + j = i + (j + 1) := by omega
      rw [hidx]
      exact hp (j + 1) (by omega)
    have hnp2 : isPending (r ((i + 1) + k)) = false := by
      have hidx : (i + 1) + k = i + (k + 1) := by omega
      rw [hidx]
      exact hnp
    have ihr := ih (i + 1) hik2 hp2 hnp2
    have hf : 5 - i = (5 - (i + 1)) + 1 := by omega
    rw [hf]
    cases hr : r i with
    | transportErr m =>
      rw [hr] at hp0
      simp [isPending] at hp0
    | response status stats body =>
      rw [hr] at hp0
      have h202 : status = 202 := by
        simpa [isPending] using hp0
      subst h202
      simp only [getGenerationStatsLoop, hr, hlt, eq_self_iff_true, if_true]
      constructor
      · rw [ihr.1]
      · rw [ihr.2, List.range_succ_eq_map]
        simp only [List.map_cons, List.map_map]
        congr 1
        apply List.map_congr_left
        intro a _
        simp only [Function.comp_apply]
        omega

/-- C3: the stats lookup issues at most 5 attempts; when the first `k`
responses are pending (HTTP 202) and response `k` is not, it performs
exactly `k + 1` attempts with the backoff schedule 1s, 2s, ..., `k`s
before the retries, stopping at the first non-pending response; after
five pending responses, the backoffs are 1s..5s and the last (pending)
response is used as-is, yielding an HTTP error; for responses pending
3 times then successful, the result is the success payload after backoffs
1s, 2s, 3s, and `GetChatResponse` records the payload's native token
counts, model name and total cost, not the fallback estimate. -/
theorem C3_stats_retry_and_reconcile :
    (∀ r : Nat → HTTPResult, (GetGenerationStats r).attempts ≤ 5) ∧
    (∀ (r : Nat → HTTPResult) (k : Nat), k < 5 →
      (∀ j, j < k → isPending (r j) = true) → isPending (r k) = false →
      (GetGenerationStats r).attempts = k + 1 ∧
        (GetGenerationStats r).sleeps = (List.range k).map (fun j => j + 1)) ∧
    (∀ (ps ss : GenerationStats) (pb sb : List Char),
      GetGenerationStats
          (fun i => if i < 3 then HTTPResult.response 202 ps pb
                    else HTTPResult.response 200 ss sb)
        = ⟨Except.ok ss, [1, 2, 3], 4⟩) ∧
    (∀ (ps : GenerationStats) (pb : List Char),
      GetGenerationStats (fun _ => HTTPResult.response 202 ps pb)
        = ⟨Except.error ((goStr "HTTP error 202: ") ++ pb), [1, 2, 3, 4, 5], 5⟩) ∧
    (∀ (model : List Char) (resp : ChatCompletionResponse) (userID : Int)
        (files : Int → FileState) (writeFails : Bool) (now : Nat)
        (choice : ChatCompletionChoice) (rest : List ChatCompletionChoice)
        (ps ss : GenerationStats) (pb sb : List Char),
      resp.id ≠ [] → resp.choices = choice :: rest →
      (GetChatResponse model (.ok resp)
          (fun i => if i < 3 then HTTPResult.response 202 ps pb
                    else HTTPResult.response 200 ss sb)
          userID files writeFails now).expense
        = some { timestamp := now
                 model := ss.model
                 inputTokens := ss.nativeTokensPrompt
                 outputTokens := ss.nativeTokensCompletion
                 cost := ss.totalCost }) := by
  refine ⟨?_, ?_, ?_, ?_, ?_⟩
  · intro r
    exact getGenerationStatsLoop_attempts_le r 5 0
  · intro r k hk hp hnp
    have hall := getGenerationStatsLoop_first_settled r k 0 (by omega)
      (by intro j hj; simpa using hp j hj) (by simpa using hnp)
    have h50 : getGenerationStatsLoop r 0 (5 - 0) = GetGenerationStats r := rfl
    rw [h50] at hall
    refine ⟨hall.1, ?_⟩
    rw [hall.2]
    apply List.map_congr_left
    intro a _
    omega
  · intro ps ss pb sb
    rfl
  · intro ps pb
    rfl
  · intro model resp userID files writeFails now choice rest ps ss pb sb hid hch
    obtain ⟨rid, rmodel, rchoices, rusage⟩ := resp
    simp only at hid hch
    subst hch
    have hok : (GetGenerationStats
        (fun i => if i < 3 then HTTPResult.response 202 ps pb
                  else HTTPResult.response 200 ss sb)).result = Except.ok ss := rfl
    simp [GetChatResponse, reconcileExpense, hid, hok]

theorem C3_stats_retry_and_reconcile_witness :
    (2 < 5 ∧
      (∀ j, j < 2 → isPending
        ((fun i => if i < 2
            then HTTPResult.response 202
              ⟨goStr "g", goStr "m0", goStr "t", 1, 2, 3, 4, 0, goStr "p", 5, false, false⟩
              (goStr "pend")
            else HTTPResult.transportErr (goStr "boom")) j) = true) ∧
      isPending
        ((fun i => if i < 2
            then HTTPResult.response 202
              ⟨goStr "g", goStr "m0", goStr "t", 1, 2, 3, 4, 0, goStr "p", 5, false, false⟩
              (goStr "pend")
            else HTTPResult.transportErr (goStr "boom")) 2) = false ∧
      (GetGenerationStats
          (fun i => if i < 2
            then HTTPResult.response 202
              ⟨goStr "g", goStr "m0", goStr "t", 1, 2, 3, 4, 0, goStr "p", 5, false, false⟩
              (goStr "pend")
            else HTTPResult.transportErr (goStr "boom"))).attempts = 2 + 1) ∧
    ((GetChatResponse (goStr "m")
        (.ok { id := goStr "gen-1", model := goStr "m",
               choices := [⟨0, ⟨goStr "assistant", goStr "hi"⟩, goStr "stop"⟩],
               usage := ⟨3, 4, 7⟩ })
        (fun i => if i < 3
          then HTTPResult.response 202
            ⟨goStr "g", goStr "m0", goStr "t", 1, 2, 3, 4, 0, goStr "p", 5, false, false⟩
            (goStr "pend")
          else HTTPResult.response 200
            ⟨goStr "g", goStr "m1", goStr "t", 10, 20, 11, 22, 0, goStr "p", 7, false, true⟩
            (goStr "ok"))
        1 (fun _ => FileState.missing) false 0).expense
      = some { timestamp := 0
               model := goStr "m1"
               inputTokens := 11
               outputTokens := 22
               cost := 7 }) := by
  constructor
  · refine ⟨by decide, by decide, by decide, ?_⟩
    exact (C3_stats_retry_and_reconcile.2.1 _ 2 (by decide) (by decide) (by decide)).1
  · exact C3_stats_retry_and_reconcile.2.2.2.2 (goStr "m")
      { id := goStr "gen-1", model := goStr "m",
        choices := [⟨0, ⟨goStr "assistant", goStr "hi"⟩, goStr "stop"⟩], usage := ⟨3, 4, 7⟩ }
      1 (fun _ => FileState.missing) false 0
      ⟨0, ⟨goStr "assistant", goStr "hi"⟩, goStr "stop"⟩ []
      ⟨goStr "g", goStr "m0", goStr "t", 1, 2, 3, 4, 0, goStr "p", 5, false, false⟩
      ⟨goStr "g", goStr "m1", goStr "t", 10, 20, 11, 22, 0, goStr "p", 7, false, true⟩
      (goStr "pend") (goStr "ok") (by decide) rfl

/-- When reading the user's settings succeeds, `AddExpense` (with a working
write) stores the aggregate extended by exactly the one record, with the
running total increased by its cost. -/
theorem AddExpense_store_after (files : Int → FileState) (userID : Int)
    (e : ExpenseRecord) (now : Nat) (s : UserSettings)
    (hget : GetUserSettings files userID now = .ok s) :
    AddExpense files userID e false now
      = .ok (fun uid => if uid = s.userID
          then FileState.good
            { s with expenseHistory := s.expenseHistory ++ [e]
                     totalExpenses := s.totalExpenses + e.cost
                     lastUpdated := now }
          else files uid) := by
  unfold AddExpense SaveUserSettings
  rw [hget]
  rfl

/-- A failing write leaves the store unchanged at the call site that only
logs `AddExpense` errors. -/
theorem AddExpense_writeFails_noop (files : Int → FileState) (userID : Int)
    (e : ExpenseRecord) (now : Nat) :
    (match AddExpense files userID e true now with
     | .ok f => f
     | .error _ => files) = files := by
  unfold AddExpense SaveUserSettings
  cases GetUserSettings files userID now <;> rfl

/-- C6: for every completion that yields a reply (a successful response
with at least one choice), the reply is the first choice's content, exactly
one expense record is produced, and when persistence works the user's
aggregate is extended by exactly that record with the total updated; when
persistence fails the store is unchanged but the reply is still returned
(the storage error never propagates). -/
theorem C6_one_expense_reply_nonfatal
    (model : List Char) (resp : ChatCompletionResponse) (oracle : Nat → HTTPResult)
    (userID : Int) (files : Int → FileState) (writeFails : Bool) (now : Nat)
    (choice : ChatCompletionChoice) (rest : List ChatCompletionChoice)
    (hch : resp.choices = choice :: rest) :
    (GetChatResponse model (.ok resp) oracle userID files writeFails now).reply
        = .ok choice.message.content ∧
      (∃ e, (GetChatResponse model (.ok resp) oracle userID files writeFails now).expense
          = some e ∧
        (∀ s : UserSettings, writeFails = false →
          GetUserSettings files userID now = .ok s → s.userID = userID →
          (GetChatResponse model (.ok resp) oracle userID files writeFails now).files userID
            = FileState.good
              { s with expenseHistory := s.expenseHistory ++ [e]
                       totalExpenses := s.totalExpenses + e.cost
                       lastUpdated := now })) ∧
      (writeFails = true →
        (GetChatResponse model (.ok resp) oracle userID files writeFails now).files
          = files) := by
  obtain ⟨rid, rmodel, rchoices, rusage⟩ := resp
  simp only at hch
  subst hch
  refine ⟨rfl,
    ⟨(reconcileExpense model ⟨rid, rmodel, choice :: rest, rusage⟩ oracle now).2, rfl, ?_⟩,
    ?_⟩
  · intro s hwf hget huid
    subst hwf
    show (match AddExpense files userID
        (reconcileExpense model ⟨rid, rmodel, choice :: rest, rusage⟩ oracle now).2
        false now with
      | .ok f => f
      | .error _ => files) userID = _
    rw [AddExpense_store_after files userID _ now s hget]
    simp [huid]
  · intro hwf
    subst hwf
    show (match AddExpense files userID
        (reconcileExpense model ⟨rid, rmodel, choice :: rest, rusage⟩ oracle now).2
        true now with
      | .ok f => f
      | .error _ => files) = files
    exact AddExpense_writeFails_noop files userID _ now

theorem C6_one_expense_reply_nonfatal_witness :
    ({ id := goStr "gen-2", model := goStr "m",
       choices := [⟨0, ⟨goStr "assistant", goStr "yo"⟩, goStr "stop"⟩],
       usage := ⟨3, 4, 7⟩ } : ChatCompletionResponse).choices
        = ⟨0, ⟨goStr "assistant", goStr "yo"⟩, goStr "stop"⟩ :: [] ∧
      ((GetChatResponse (goStr "m")
          (.ok { id := goStr "gen-2", model := goStr "m",
                 choices := [⟨0, ⟨goStr "assistant", goStr "yo"⟩, goStr "stop"⟩],
                 usage := ⟨3, 4, 7⟩ })
          (fun _ => HTTPResult.transportErr (goStr "down")) 4 (fun _ => FileState.missing)
          false 0).reply = .ok (goStr "yo") ∧
        (∃ e, (GetChatResponse (goStr "m")
            (.ok { id := goStr "gen-2", model := goStr "m",
                   choices := [⟨0, ⟨goStr "assistant", goStr "yo"⟩, goStr "stop"⟩],
                   usage := ⟨3, 4, 7⟩ })
            (fun _ => HTTPResult.transportErr (goStr "down")) 4 (fun _ => FileState.missing)
            false 0).expense = some e ∧
          (∀ s : UserSettings, false = false →
            GetUserSettings (fun _ => FileState.missing) 4 0 = .ok s → s.userID = 4 →
            (GetChatResponse (goStr "m")
              (.ok { id := goStr "gen-2", model := goStr "m",
                     choices := [⟨0, ⟨goStr "assistant", goStr "yo"⟩, goStr "stop"⟩],
                     usage := ⟨3, 4, 7⟩ })
              (fun _ => HTTPResult.transportErr (goStr "down")) 4 (fun _ => FileState.missing)
              false 0).files 4
              = FileState.good
                { s with expenseHistory := s.expenseHistory ++ [e]
                         totalExpenses := s.totalExpenses + e.cost
                         lastUpdated := 0 })) ∧
        (false = true →
          (GetChatResponse (goStr "m")
            (.ok { id := goStr "gen-2", model := goStr "m",
                   choices := [⟨0, ⟨goStr "assistant", goStr "yo"⟩, goStr "stop"⟩],
                   usage := ⟨3, 4, 7⟩ })
            (fun _ => HTTPResult.transportErr (goStr "down")) 4 (fun _ => FileState.missing)
            false 0).files = (fun _ => FileState.missing))) :=
  ⟨rfl,
    C6_one_expense_reply_nonfatal (goStr "m")
      { id := goStr "gen-2", model := goStr "m",
        choices := [⟨0, ⟨goStr "assistant", goStr "yo"⟩, goStr "stop"⟩],
        usage := ⟨3, 4, 7⟩ }
      (fun _ => HTTPResult.transportErr (goStr "down")) 4 (fun _ => FileState.missing)
      false 0 ⟨0, ⟨goStr "assistant", goStr "yo"⟩, goStr "stop"⟩ [] rfl⟩

/-- The running total of a settings aggregate equals the sum of the costs
of its expense records. -/
def settingsConsistent (s : UserSettings) : Prop :=
  s.totalExpenses = (s.expenseHistory.map (fun r => r.cost)).sum

/-- Every stored aggregate in the file store is consistent. -/
def StoreConsistent (files : Int → FileState) : Prop :=
  ∀ u s, files u = FileState.good s → settingsConsistent s

/-- Every stored expense record in the file store has non-negative cost. -/
def StoreNonneg (files : Int → FileState) : Prop :=
  ∀ u s, files u = FileState.good s → ∀ r ∈ s.expenseHistory, 0 ≤ r.cost

/-- A successful settings read returns a consistent aggregate when the
store is consistent (a missing file yields the consistent defaults). -/
theorem GetUserSettings_consistent (files : Int → FileState) (userID : Int) (now : Nat)
    (s0 : UserSettings) (h : StoreConsistent files)
    (hg : GetUserSettings files userID now = .ok s0) : settingsConsistent s0 := by
  unfold GetUserSettings at hg
  cases hf : files userID with
  | missing =>
    rw [hf] at hg
    simp only [Except.ok.injEq] at hg
    subst hg
    simp [settingsConsistent, defaultSettings]
  | corrupt m =>
    rw [hf] at hg
    simp at hg
  | good s1 =>
    rw [hf] at hg
    simp only [Except.ok.injEq] at hg
    subst hg
    exact h userID s1 hf

/-- A successful settings read returns an aggregate with non-negative
record costs when the store has only non-negative record costs. -/
theorem GetUserSettings_nonneg (files : Int → FileState) (userID : Int) (now : Nat)
    (s0 : UserSettings) (h : StoreNonneg files)
    (hg : GetUserSettings files userID now = .ok s0) :
    ∀ r ∈ s0.expenseHistory, 0 ≤ r.cost := by
  unfold GetUserSettings at hg
  cases hf : files userID with
  | missing =>
    rw [hf] at hg
    simp only [Except.ok.injEq] at hg
    subst hg
    simp [defaultSettings]
  | corrupt m =>
    rw [hf] at hg
    simp at hg
  | good s1 =>
    rw [hf] at hg
    simp only [Except.ok.injEq] at hg
    subst hg
    exact h userID s1 hf

/-- Appending a record and adding its cost preserves consistency. -/
theorem settingsConsistent_extend (s0 : UserSettings) (e : ExpenseRecord) (now : Nat)
    (h : settingsConsistent s0) :
    settingsConsistent
      { s0 with expenseHistory := s0.expenseHistory ++ [e]
                totalExpenses := s0.totalExpenses + e.cost
                lastUpdated := now } := by
  unfold settingsConsistent at *
  simp [h]

/-- One `AddExpense` call preserves store consistency. -/
theorem addExpenseStep_consistent (userID : Int) (now : Nat) (files : Int → FileState)
    (e : ExpenseRecord) (h : StoreConsistent files) :
    StoreConsistent (addExpenseStep userID now files e) := by
  intro u s hs
  unfold addExpenseStep at hs
  cases hg : GetUserSettings files userID now with
  | error msg =>
    have herr : AddExpense files userID e false now = .error msg := by
      unfold AddExpense
      rw [hg]
    rw [herr] at hs
    exact h u s hs
  | ok s0 =>
    rw [AddExpense_store_after files userID e now s0 hg] at hs
    simp only at hs
    by_cases hu : u = s0.userID
    · rw [if_pos hu, FileState.good.injEq] at hs
      subst hs
      exact settingsConsistent_extend s0 e now
        (GetUserSettings_consistent files userID now s0 h hg)
    · rw [if_neg hu] at hs
      exact h u s hs

/-- One `AddExpense` call with a non-negative cost preserves store
non-negativity. -/
theorem addExpenseStep_nonneg (userID : Int) (now : Nat) (files : Int → FileState)
    (e : ExpenseRecord) (he : 0 ≤ e.cost) (h : StoreNonneg files) :
    StoreNonneg (addExpenseStep userID now files e) := by
  intro u s hs
  unfold addExpenseStep at hs
  cases hg : GetUserSettings files userID now with
  | error msg =>
    have herr : AddExpense files userID e false now = .error msg := by
      unfold AddExpense
      rw [hg]
    rw [herr] at hs
    exact h u s hs
  | ok s0 =>
    rw [AddExpense_store_after files userID e now s0 hg] at hs
    simp only at hs
    by_cases hu : u = s0.userID
    · rw [if_pos hu, FileState.good.injEq] at hs
      subst hs
      intro r hr
      simp only [List.mem_append, List.mem_singleton] at hr
      rcases hr with hr | hr
      · exact GetUserSettings_nonneg files userID now s0 h hg r hr
      · subst hr
        exact he
    · rw [if_neg hu] at hs
      exact h u s hs

/-- A sequence of `AddExpense` calls preserves store consistency. -/
theorem runAddExpenses_consistent (userID : Int) (now : Nat) (es : List ExpenseRecord) :
    ∀ files, StoreConsistent files →
      StoreConsistent (runAddExpenses userID es now files) := by
  induction es with
  | nil => intro files h; exact h
  | cons e es ih =>
    intro files h
    exact ih (addExpenseStep userID now files e) (addExpenseStep_consistent userID now files e h)

/-- A sequence of `AddExpense` calls with non-negative costs preserves
store non-negativity. -/
theorem runAddExpenses_nonneg (userID : Int) (now : Nat) (es : List ExpenseRecord) :
    (∀ e ∈ es, 0 ≤ e.cost) → ∀ files, StoreNonneg files →
      StoreNonneg (runAddExpenses userID es now files) := by
  induction es with
  | nil => intro _ files h; exact h
  | cons e es ih =>
    intro hes files h
    exact ih (fun x hx => hes x (List.mem_cons_of_mem e hx))
      (addExpenseStep userID now files e)
      (addExpenseStep_nonneg userID now files e (hes e (List.mem_cons_self e es)) h)

/-- C7 counterexample: `AddExpense` performs no non-negativity check; after
adding a record with cost −1 to a fresh store, the stored aggregate holds
an expense record with negative cost. -/
theorem C7_nonneg_counterexample :
    (AddExpense (fun _ => FileState.missing) 7
        { timestamp := 0, model := goStr "m", inputTokens := 1, outputTokens := 1,
          cost := -1 } false 0).toOption.map (fun f => f 7)
      = some (FileState.good
          { userID := 7
            currentModel := goStr "openai/gpt-3.5-turbo"
            chatMode := goStr "without_history"
            customModels := []
            totalExpenses := 0 + -1
            expenseHistory := [{ timestamp := 0, model := goStr "m", inputTokens := 1,
                                 outputTokens := 1, cost := -1 }]
            chatHistory := []
            lastUpdated := 0 }) ∧
    ({ timestamp := 0, model := goStr "m", inputTokens := 1, outputTokens := 1,
       cost := -1 } : ExpenseRecord).cost < 0 := by
  constructor
  · rfl
  · norm_num

/-- C7 (amended): after every sequence of `AddExpense` operations on a
fresh store, every aggregate read back is consistent: the running total
equals the sum of the costs of the records in the expense history; and
whenever every added cost is non-negative, so is every stored record's
cost (the code itself never checks non-negativity). -/
theorem C7_total_is_sum_amended (es : List ExpenseRecord) (userID : Int)
    (now now2 : Nat) (s : UserSettings)
    (hget : GetUserSettings (runAddExpenses userID es now (fun _ => FileState.missing))
        userID now2 = .ok s) :
    s.totalExpenses = (s.expenseHistory.map (fun r => r.cost)).sum ∧
      ((∀ e ∈ es, 0 ≤ e.cost) → ∀ r ∈ s.expenseHistory, 0 ≤ r.cost) := by
  constructor
  · exact GetUserSettings_consistent _ userID now2 s
      (runAddExpenses_consistent userID now es (fun _ => FileState.missing)
        (by intro u s0 h0; simp at h0))
      hget
  · intro hes
    exact GetUserSettings_nonneg _ userID now2 s
      (runAddExpenses_nonneg userID now es hes (fun _ => FileState.missing)
        (by intro u s0 h0; simp at h0))
      hget

theorem C7_total_is_sum_amended_witness :
    GetUserSettings
        (runAddExpenses 3
          [{ timestamp := 0, model := goStr "x", inputTokens := 1, outputTokens := 2,
             cost := 5 }] 0 (fun _ => FileState.missing)) 3 9
      = .ok { userID := 3
              currentModel := goStr "openai/gpt-3.5-turbo"
              chatMode := goStr "without_history"
              customModels := []
              totalExpenses := 0 + 5
              expenseHistory := [{ timestamp := 0, model := goStr "x", inputTokens := 1,
                                   outputTokens := 2, cost := 5 }]
              chatHistory := []
              lastUpdated := 0 } ∧
    (({ userID := 3
        currentModel := goStr "openai/gpt-3.5-turbo"
        chatMode := goStr "without_history"
        customModels := []
        totalExpenses := 0 + 5
        expenseHistory := [{ timestamp := 0, model := goStr "x", inputTokens := 1,
                             outputTokens := 2, cost := 5 }]
        chatHistory := []
        lastUpdated := 0 } : UserSettings).totalExpenses
        = ((({ userID := 3
               currentModel := goStr "openai/gpt-3.5-turbo"
               chatMode := goStr "without_history"
               customModels := []
               totalExpenses := 0 + 5
               expenseHistory := [{ timestamp := 0, model := goStr "x", inputTokens := 1,
                                    outputTokens := 2, cost := 5 }]
               chatHistory := []
               lastUpdated := 0 } : UserSettings).expenseHistory.map (fun r => r.cost)).sum) ∧
      ((∀ e ∈ [({ timestamp := 0, model := goStr "x", inputTokens := 1, outputTokens := 2,
                  cost := 5 } : ExpenseRecord)], 0 ≤ e.cost) →
        ∀ r ∈ ({ userID := 3
                 currentModel := goStr "openai/gpt-3.5-turbo"
                 chatMode := goStr "without_history"
                 customModels := []
                 totalExpenses := 0 + 5
                 expenseHistory := [{ timestamp := 0, model := goStr "x", inputTokens := 1,
                                      outputTokens := 2, cost := 5 }]
                 chatHistory := []
                 lastUpdated := 0 } : UserSettings).expenseHistory, 0 ≤ r.cost)) :=
  ⟨rfl,
    C7_total_is_sum_amended
      [(⟨0, goStr "x", 1, 2, 5⟩ : ExpenseRecord)]
      3 0 9 _ rfl⟩
